import Mathlib

/-!
Verification development for the Brave Ads eligibility and selection engine
(`bat-native-ads`): a shallow embedding of `ad_targeting.cc`,
`eligible_inline_content_ads.cc` and `eligible_ads_predictor_util.h`,
together with theorems settling the specification claims.

The asynchronous storage collaborators (ad-event store, creative-ads store,
browsing-history provider), the client-side "seen" memory, the exclusion rule
set, pacing, the feature flags and the weighted sampler live outside the
translated source files; they are gathered into an explicit `Env` record, so
that the callback-driven C++ control flow becomes a pure function of the
environment.  `double` is embedded as `ℚ`.
-/

/-- A targeting segment, e.g. `"technology & computing-software"`. -/
abbrev Segment := String

/-- `SegmentList` from `ad_targeting_segment_info.h`. -/
abbrev SegmentList := List Segment

/-- `SegmentsInfo` from `ad_targeting_segment_info.h`: the per-model segment
lists produced by the three targeting models. -/
structure SegmentsInfo where
  text_classification_segments : SegmentList
  epsilon_greedy_bandit_segments : SegmentList
  purchase_intent_segments : SegmentList
deriving DecidableEq

/-- `CreativeAdInfo` (restricted to the fields the translated code reads):
`priority` is an unsigned integer, `ptr` a `double` embedded as `ℚ`. -/
structure CreativeAdInfo where
  creative_instance_id : String
  creative_set_id : String
  campaign_id : String
  advertiser_id : String
  segment : Segment
  priority : Nat
  ptr : ℚ
deriving DecidableEq

/-- A default-constructed `CreativeAdInfo()`: empty strings, zero numbers. -/
def defaultCreativeAdInfo : CreativeAdInfo :=
  { creative_instance_id := ""
    creative_set_id := ""
    campaign_id := ""
    advertiser_id := ""
    segment := ""
    priority := 0
    ptr := 0 }

abbrev CreativeAdList := List CreativeAdInfo

/-- `AdEventInfo` (opaque to the translated code: only the external helpers
inspect its fields). -/
structure AdEventInfo where
  creative_instance_id : String
  advertiser_id : String
  timestamp : Int
deriving DecidableEq

abbrev AdEventList := List AdEventInfo

/-- A browsing-history entry (opaque: only the exclusion rules read it). -/
structure BrowsingHistoryEntry where
  url : String
deriving DecidableEq

abbrev BrowsingHistoryList := List BrowsingHistoryEntry

/-- `AdPredictorInfo<T>` from `ad_predictor_info.h`, monomorphised to
inline-content ads: the creative ad, its resolved segments, the four
segment-match flags, the two recency fields and the score. -/
structure AdPredictorInfo where
  creative_ad : CreativeAdInfo
  segments : SegmentList
  does_match_intent_child_segments : Bool
  does_match_intent_parent_segments : Bool
  does_match_interest_child_segments : Bool
  does_match_interest_parent_segments : Bool
  ad_last_seen_hours_ago : Int
  advertiser_last_seen_hours_ago : Int
  score : ℚ
deriving DecidableEq

/-- The 7-slot predictor weight vector (`features::GetAdPredictorWeights`),
one field per `AdPredictorWeightIndex` enumerator, in enum order 0..6. -/
structure AdPredictorWeights where
  matchesIntentChildSegment : ℚ
  matchesIntentParentSegment : ℚ
  matchesInterestChildSegment : ℚ
  matchesInterestParentSegment : ℚ
  adLastSeenInHours : ℚ
  advertiserLastSeenInHours : ℚ
  priority : ℚ
deriving DecidableEq

/-- The engine's environment: all asynchronous collaborators and all helper
functions whose definitions are outside the translated source files.  A
`none` in `adEventsResult` models the ad-event store reporting failure; the
catalog lookups return their success flag, the segment list passed back to
the callback, and the matched ads. -/
structure Env where
  adEventsResult : Option AdEventList
  browsingHistory : BrowsingHistoryList
  catalogForSegmentsAndDimensions : SegmentList → String → Bool × SegmentList × CreativeAdList
  catalogForDimensions : String → Bool × CreativeAdList
  seenAd : CreativeAdInfo → Bool
  seenAdvertiser : CreativeAdInfo → Bool
  shouldExcludeAd : AdEventList → BrowsingHistoryList → CreativeAdInfo → Bool
  paceAllows : CreativeAdInfo → Bool
  lastServedCreativeAd : CreativeAdInfo
  shouldFilterSegment : Segment → Bool
  weights : AdPredictorWeights
  lastSeenAdTime : AdEventList → CreativeAdInfo → Option Int
  lastSeenAdvertiserTime : AdEventList → CreativeAdInfo → Option Int
  now : Int
  sampler : List (String × AdPredictorInfo) → Option CreativeAdInfo

/-! ## Segment resolver -/

/-- Modelled from the spec: the per-segment step of `GetParentSegments`
(`ad_targeting_segment_util.cc`, not under the translated sources) — for a
segment containing a `-` separator emit only the substring before the first
`-`; a segment without a separator passes through unchanged. -/
def parentOfChars : List Char → List Char
  | [] => []
  | c :: rest => if c = '-' then [] else c :: parentOfChars rest

/-- Modelled from the spec: `GetParentSegment` applied to one segment. -/
def GetParentSegment (segment : Segment) : Segment :=
  String.mk (parentOfChars segment.data)

/-- Modelled from the spec: `GetParentSegments` — parent of every segment,
preserving order, no deduplication. -/
def GetParentSegments (segments : SegmentList) : SegmentList :=
  segments.map GetParentSegment

/-- `kTopTextClassificationSegmentCount` from `ad_targeting.cc`. -/
def kTopTextClassificationSegmentCount : Int := 3

/-- The loop body of `FilterSegments` from `ad_targeting.cc`: skip segments
marked by `ShouldFilterSegment`, push survivors, and break once the running
count reaches `max_count`. -/
def FilterSegmentsLoop (env : Env) (max_count : Int) :
    SegmentList → Int → SegmentList
  | [], _ => []
  | s :: rest, count =>
    if env.shouldFilterSegment s then
      FilterSegmentsLoop env max_count rest count
    else
      if count + 1 = max_count then [s]
      else s :: FilterSegmentsLoop env max_count rest (count + 1)

/-- `FilterSegments` from `ad_targeting.cc`. -/
def FilterSegments (env : Env) (segments : SegmentList) (max_count : Int) :
    SegmentList :=
  FilterSegmentsLoop env max_count segments 0

/-- `GetTopSegments` from `ad_targeting.cc`.  Note the ternary exactly as in
the source: `for_parent ? segments.text_classification_segments :
GetParentSegments(segments.text_classification_segments)`. -/
def GetTopSegments (env : Env) (segments : SegmentsInfo) (for_parent : Bool) :
    SegmentList :=
  let text_classification_segments :=
    if for_parent then segments.text_classification_segments
    else GetParentSegments segments.text_classification_segments
  let filtered_text_classification_segments :=
    FilterSegments env text_classification_segments
      kTopTextClassificationSegmentCount
  filtered_text_classification_segments ++
    segments.epsilon_greedy_bandit_segments ++
    segments.purchase_intent_segments

/-- `GetTopParentChildSegments` from `ad_targeting.cc`:
`GetTopSegments(segments, /* parent */ false)`. -/
def GetTopParentChildSegments (env : Env) (segments : SegmentsInfo) :
    SegmentList :=
  GetTopSegments env segments false

/-- `GetTopParentSegments` from `ad_targeting.cc`:
`GetTopSegments(segments, /* parent */ true)`. -/
def GetTopParentSegments (env : Env) (segments : SegmentsInfo) : SegmentList :=
  GetTopSegments env segments true

/-! ## Eligibility pipeline (`eligible_inline_content_ads.cc`) -/

/-- `ShouldCapLastServedAd` from `eligible_inline_content_ads.cc`:
`ads.size() != 1`. -/
def ShouldCapLastServedAd (ads : CreativeAdList) : Bool :=
  ads.length != 1

/-- Modelled from the spec: the round-robin reset policy shared by the two
seen-dedup stages (`seen_ads.cc` / `seen_advertisers.cc`, not under the
translated sources) — drop the candidates `keep` rejects, but if that would
drop every candidate, clear the memory and retry with the full list. -/
def RoundRobinFilter (keep : CreativeAdInfo → Bool) (ads : CreativeAdList) :
    CreativeAdList :=
  let unseen := ads.filter keep
  if unseen.isEmpty then ads else unseen

/-- Modelled from the spec: `FilterSeenAdvertisersAndRoundRobinIfNeeded` —
seen-advertiser dedup with round-robin reset, the "seen" memory supplied by
the environment. -/
def FilterSeenAdvertisersAndRoundRobinIfNeeded (env : Env)
    (ads : CreativeAdList) : CreativeAdList :=
  RoundRobinFilter (fun ad => !env.seenAdvertiser ad) ads

/-- Modelled from the spec: `FilterSeenAdsAndRoundRobinIfNeeded` — seen-ad
dedup with round-robin reset. -/
def FilterSeenAdsAndRoundRobinIfNeeded (env : Env) (ads : CreativeAdList) :
    CreativeAdList :=
  RoundRobinFilter (fun ad => !env.seenAd ad) ads

/-- Modelled from the spec: `PaceAds` (`ad_pacing.h`, not under the
translated sources) — drop, for this call, the ads whose creative set has met
its pacing budget; the per-call pacing decision is supplied by the
environment. -/
def PaceAds (env : Env) (ads : CreativeAdList) : CreativeAdList :=
  ads.filter env.paceAllows

/-- The minimum `priority` over a candidate list, `none` for the empty
list. -/
def minPriority : CreativeAdList → Option Nat
  | [] => none
  | ad :: rest =>
    some (match minPriority rest with
          | none => ad.priority
          | some m => min ad.priority m)

/-- Modelled from the spec: `PrioritizeAds` (`ad_priority.h`, not under the
translated sources) — only the tier with the numerically lowest `priority`
advances. -/
def PrioritizeAds (ads : CreativeAdList) : CreativeAdList :=
  match minPriority ads with
  | none => []
  | some m => ads.filter (fun ad => ad.priority == m)

/-- `EligibleAds::ApplyFrequencyCapping` from
`eligible_inline_content_ads.cc`: remove ads the exclusion rules reject or
whose `creative_instance_id` equals the given last-served ad's. -/
def ApplyFrequencyCapping (env : Env) (ads : CreativeAdList)
    (last_served_creative_ad : CreativeAdInfo) (ad_events : AdEventList)
    (browsing_history : BrowsingHistoryList) : CreativeAdList :=
  ads.filter (fun ad =>
    !(env.shouldExcludeAd ad_events browsing_history ad ||
      ad.creative_instance_id == last_served_creative_ad.creative_instance_id))

/-- `EligibleAds::FilterIneligibleAds` from `eligible_inline_content_ads.cc`:
the five-stage pipeline.  `ShouldCapLastServedAd` is evaluated on `ads`, the
original input list. -/
def FilterIneligibleAds (env : Env) (ads : CreativeAdList)
    (ad_events : AdEventList) (browsing_history : BrowsingHistoryList) :
    CreativeAdList :=
  if ads.isEmpty then []
  else
    let eligible₁ := FilterSeenAdvertisersAndRoundRobinIfNeeded env ads
    let eligible₂ := FilterSeenAdsAndRoundRobinIfNeeded env eligible₁
    let eligible₃ := ApplyFrequencyCapping env eligible₂
      (if ShouldCapLastServedAd ads then env.lastServedCreativeAd
       else defaultCreativeAdInfo)
      ad_events browsing_history
    let eligible₄ := PaceAds env eligible₃
    PrioritizeAds eligible₄

/-! ## Predictor and scorer (`eligible_ads_predictor_util.h`) -/

/-- Modelled from the spec: `SetIntersection` (`container_util.h`, not under
the translated sources) — the claims only inspect emptiness, i.e. whether the
two lists share an element. -/
def SetIntersection (l₁ l₂ : SegmentList) : SegmentList :=
  l₁.filter (fun s => decide (s ∈ l₂))

/-- `ComputePredictorFeatures` from `eligible_ads_predictor_util.h`.  Note,
exactly as in the source, that both parent flags are computed from
`GetParentSegments(interest_segments)`. -/
def ComputePredictorFeatures (env : Env) (ad_predictor : AdPredictorInfo)
    (ad_events : AdEventList) (interest_segments intent_segments : SegmentList) :
    AdPredictorInfo :=
  let intent_child_segments_intersection :=
    SetIntersection intent_segments ad_predictor.segments
  let parent_intent_segments := GetParentSegments interest_segments
  let intent_parent_segments_intersection :=
    SetIntersection parent_intent_segments ad_predictor.segments
  let interest_child_segments_intersection :=
    SetIntersection interest_segments ad_predictor.segments
  let parent_interest_segments := GetParentSegments interest_segments
  let interest_parent_segments_intersection :=
    SetIntersection parent_interest_segments ad_predictor.segments
  { ad_predictor with
    does_match_intent_child_segments :=
      !intent_child_segments_intersection.isEmpty
    does_match_intent_parent_segments :=
      !intent_parent_segments_intersection.isEmpty
    does_match_interest_child_segments :=
      !interest_child_segments_intersection.isEmpty
    does_match_interest_parent_segments :=
      !interest_parent_segments_intersection.isEmpty
    ad_last_seen_hours_ago :=
      match env.lastSeenAdTime ad_events ad_predictor.creative_ad with
      | some t => env.now - t
      | none => 0
    advertiser_last_seen_hours_ago :=
      match env.lastSeenAdvertiserTime ad_events ad_predictor.creative_ad with
      | some t => env.now - t
      | none => 0 }

/-- `base::Time::kHoursPerDay`. -/
def kHoursPerDay : Int := 24

/-- `ComputePredictorScore` from `eligible_ads_predictor_util.h`: sequential
accumulation exactly as in the source, finally multiplied by `ptr`. -/
def ComputePredictorScore (env : Env) (ad_predictor : AdPredictorInfo) : ℚ :=
  let weights := env.weights
  let score : ℚ := 0
  let score :=
    if ad_predictor.does_match_intent_child_segments then
      score + weights.matchesIntentChildSegment
    else if ad_predictor.does_match_intent_parent_segments then
      score + weights.matchesIntentParentSegment
    else score
  let score :=
    if ad_predictor.does_match_interest_child_segments then
      score + weights.matchesInterestChildSegment
    else if ad_predictor.does_match_interest_parent_segments then
      score + weights.matchesInterestParentSegment
    else score
  let score :=
    if ad_predictor.ad_last_seen_hours_ago ≤ kHoursPerDay then
      score + weights.adLastSeenInHours *
        (ad_predictor.ad_last_seen_hours_ago : ℚ) / (kHoursPerDay : ℚ)
    else score
  let score :=
    if ad_predictor.advertiser_last_seen_hours_ago ≤ kHoursPerDay then
      score + weights.advertiserLastSeenInHours *
        (ad_predictor.advertiser_last_seen_hours_ago : ℚ) / (kHoursPerDay : ℚ)
    else score
  let score :=
    if 0 < ad_predictor.creative_ad.priority then
      score + weights.priority / (ad_predictor.creative_ad.priority : ℚ)
    else score
  score * ad_predictor.creative_ad.ptr

/-- `ComputePredictorFeaturesAndScores` from
`eligible_ads_predictor_util.h`, the `std::map` embedded as an association
list keyed by `creative_instance_id`. -/
def ComputePredictorFeaturesAndScores (env : Env)
    (ads : List (String × AdPredictorInfo)) (ad_events : AdEventList)
    (interest_segments intent_segments : SegmentList) :
    List (String × AdPredictorInfo) :=
  ads.map (fun ad =>
    let mutable_ad_predictor :=
      ComputePredictorFeatures env ad.2 ad_events interest_segments
        intent_segments
    let mutable_ad_predictor :=
      { mutable_ad_predictor with
        score := ComputePredictorScore env mutable_ad_predictor }
    (mutable_ad_predictor.creative_ad.creative_instance_id,
      mutable_ad_predictor))

/-- Modelled from the spec: `GroupEligibleAdsByCreativeInstanceId`
(`eligible_ads_util.h`, not under the translated sources) — wrap each
surviving ad in a fresh `AdPredictorInfo` keyed by its instance id, the
resolved segments being the ad's own segment. -/
def GroupEligibleAdsByCreativeInstanceId (eligible_ads : CreativeAdList) :
    List (String × AdPredictorInfo) :=
  eligible_ads.map (fun ad =>
    (ad.creative_instance_id,
     { creative_ad := ad
       segments := [ad.segment]
       does_match_intent_child_segments := false
       does_match_intent_parent_segments := false
       does_match_interest_child_segments := false
       does_match_interest_parent_segments := false
       ad_last_seen_hours_ago := 0
       advertiser_last_seen_hours_ago := 0
       score := 0 }))

/-! ## Selection orchestrator (`eligible_inline_content_ads.cc`) -/

/-- `ad_targeting::kUntargeted`. -/
def kUntargeted : Segment := "untargeted"

/-- `EligibleAds::GetForUntargeted`: query the catalog for the untargeted
segment, filter, and report `allowed = true` with whatever remains. -/
def GetForUntargeted (env : Env) (dimensions : String)
    (ad_events : AdEventList) (browsing_history : BrowsingHistoryList) :
    Bool × CreativeAdList :=
  let segments : SegmentList := [kUntargeted]
  let r := env.catalogForSegmentsAndDimensions segments dimensions
  let eligible_ads := FilterIneligibleAds env r.2.2 ad_events browsing_history
  (true, eligible_ads)

/-- `EligibleAds::GetForParentSegments`: abort with `allowed = false` when
the parent segments equal the input segments, otherwise query the parent
tier and fall back to the untargeted tier when it filters to empty. -/
def GetForParentSegments (env : Env) (segments : SegmentList)
    (dimensions : String) (ad_events : AdEventList)
    (browsing_history : BrowsingHistoryList) : Bool × CreativeAdList :=
  let parent_segments := GetParentSegments segments
  if parent_segments = segments then (false, [])
  else
    let r := env.catalogForSegmentsAndDimensions parent_segments dimensions
    let eligible_ads := FilterIneligibleAds env r.2.2 ad_events browsing_history
    if eligible_ads.isEmpty then
      GetForUntargeted env dimensions ad_events browsing_history
    else (true, eligible_ads)

/-- `EligibleAds::GetForParentChildSegments`: query the parent-child tier and
fall back to the parent tier when it filters to empty.  As in the source, the
callback's `segments` parameter shadows the input, so the parent tier
receives the segment list passed back by the catalog lookup. -/
def GetForParentChildSegments (env : Env) (segments : SegmentList)
    (dimensions : String) (ad_events : AdEventList)
    (browsing_history : BrowsingHistoryList) : Bool × CreativeAdList :=
  let r := env.catalogForSegmentsAndDimensions segments dimensions
  let returned_segments := r.2.1
  let eligible_ads := FilterIneligibleAds env r.2.2 ad_events browsing_history
  if eligible_ads.isEmpty then
    GetForParentSegments env returned_segments dimensions ad_events
      browsing_history
  else (true, eligible_ads)

/-- `EligibleAds::GetForSegments`: fetch the ad events (reporting
`allowed = false` on failure), fetch the browsing history, then cascade —
directly to the untargeted tier when `segments` is empty. -/
def GetForSegments (env : Env) (segments : SegmentList) (dimensions : String) :
    Bool × CreativeAdList :=
  match env.adEventsResult with
  | none => (false, [])
  | some ad_events =>
    let history := env.browsingHistory
    if segments.isEmpty then
      GetForUntargeted env dimensions ad_events history
    else
      GetForParentChildSegments env segments dimensions ad_events history

/-- `EligibleAds::ChooseAd`: group the eligible ads by instance id, compute
features and scores, and sample one winner. -/
def ChooseAd (env : Env) (eligible_ads : CreativeAdList)
    (ad_events : AdEventList) (interest_segments intent_segments : SegmentList) :
    Bool × Option CreativeAdInfo :=
  let ads := GroupEligibleAdsByCreativeInstanceId eligible_ads
  let ads_with_features :=
    ComputePredictorFeaturesAndScores env ads ad_events interest_segments
      intent_segments
  (true, env.sampler ads_with_features)

/-- `EligibleAds::GetEligibleAds`: fetch the dimension-matched catalog, apply
`ApplyFrequencyCapping` (and only it), then `ChooseAd`. -/
def GetEligibleAds (env : Env) (interest_segments intent_segments : SegmentList)
    (ad_events : AdEventList) (browsing_history : BrowsingHistoryList)
    (dimensions : String) : Bool × Option CreativeAdInfo :=
  let r := env.catalogForDimensions dimensions
  if !r.1 then (false, none)
  else if r.2.isEmpty then (true, none)
  else
    let eligible_ads := ApplyFrequencyCapping env r.2
      (if ShouldCapLastServedAd r.2 then env.lastServedCreativeAd
       else defaultCreativeAdInfo)
      ad_events browsing_history
    if eligible_ads.isEmpty then (true, none)
    else ChooseAd env eligible_ads ad_events interest_segments intent_segments

/-- `EligibleAds::GetFromAdPredictorScores`: fetch the ad events (reporting
`allowed = false` on failure), fetch the browsing history, then
`GetEligibleAds`. -/
def GetFromAdPredictorScores (env : Env)
    (interest_segments intent_segments : SegmentList) (dimensions : String) :
    Bool × Option CreativeAdInfo :=
  match env.adEventsResult with
  | none => (false, none)
  | some ad_events =>
    GetEligibleAds env interest_segments intent_segments ad_events
      env.browsingHistory dimensions

/-! ## A permissive concrete environment, used by concrete evaluations -/

/-- An environment in which every lookup succeeds, nothing is seen, no
exclusion rule fires, pacing admits everything, no segment is filtered, the
last served ad is the default, and the sampler picks the first candidate. -/
def env0 : Env :=
  { adEventsResult := some []
    browsingHistory := []
    catalogForSegmentsAndDimensions := fun segs _ => (true, segs, [])
    catalogForDimensions := fun _ => (true, [])
    seenAd := fun _ => false
    seenAdvertiser := fun _ => false
    shouldExcludeAd := fun _ _ _ => false
    paceAllows := fun _ => true
    lastServedCreativeAd := defaultCreativeAdInfo
    shouldFilterSegment := fun _ => false
    weights := { matchesIntentChildSegment := 1
                 matchesIntentParentSegment := 1
                 matchesInterestChildSegment := 1
                 matchesInterestParentSegment := 1
                 adLastSeenInHours := 1
                 advertiserLastSeenInHours := 1
                 priority := 1 }
    lastSeenAdTime := fun _ _ => none
    lastSeenAdvertiserTime := fun _ _ => none
    now := 0
    sampler := fun ads => (ads.head?).map (fun kv => kv.2.creative_ad) }

/-- A well-formed creative ad. -/
def adFoo : CreativeAdInfo :=
  { creative_instance_id := "instance-1"
    creative_set_id := "set-1"
    campaign_id := "campaign-1"
    advertiser_id := "advertiser-1"
    segment := "untargeted"
    priority := 1
    ptr := 1 }

/-! ## Claim C3: `GetTopParentChildSegments` / `GetTopParentSegments` -/

/-- The `SegmentsInfo` exhibiting the inverted ternary of `GetTopSegments`. -/
def tcInfo : SegmentsInfo :=
  { text_classification_segments := ["foo-bar"]
    epsilon_greedy_bandit_segments := []
    purchase_intent_segments := [] }

/-- C3: the claim says `GetTopParentChildSegments` keeps the
text-classification segments at child level and `GetTopParentSegments`
reduces them to parent level; the code does the opposite.  On
`tcInfo` (one child-level segment `"foo-bar"`, nothing filtered) the
parent-child variant returns the parent `"foo"` and the parent variant
returns the child `"foo-bar"`: the `for_parent` ternary in `GetTopSegments`
is inverted. -/
theorem claim3_code_evaluation :
    GetTopParentChildSegments env0 tcInfo = ["foo"] ∧
    GetTopParentSegments env0 tcInfo = ["foo-bar"] ∧
    GetTopParentChildSegments env0 tcInfo ≠ tcInfo.text_classification_segments ∧
    GetTopParentSegments env0 tcInfo ≠
      GetParentSegments tcInfo.text_classification_segments := by
  refine ⟨rfl, rfl, by decide, by decide⟩

/-! ## Claim C5: structure of `ComputePredictorScore` -/

/-- The score as claim C5 states it: one segment-match weight per category
with the child match winning, recency terms scaled by `hours_ago / 24` and
gated at 24 hours, the priority term `weight / priority` gated at
`priority > 0`, and the sum multiplied by `ptr`.  Claim-side definition, for
comparison with `ComputePredictorScore`. -/
def predictorScoreClaimed (w : AdPredictorWeights) (p : AdPredictorInfo) : ℚ :=
  ((if p.does_match_intent_child_segments then w.matchesIntentChildSegment
    else if p.does_match_intent_parent_segments then w.matchesIntentParentSegment
    else 0) +
   (if p.does_match_interest_child_segments then w.matchesInterestChildSegment
    else if p.does_match_interest_parent_segments then w.matchesInterestParentSegment
    else 0) +
   (if p.ad_last_seen_hours_ago ≤ 24 then
      w.adLastSeenInHours * (p.ad_last_seen_hours_ago : ℚ) / 24
    else 0) +
   (if p.advertiser_last_seen_hours_ago ≤ 24 then
      w.advertiserLastSeenInHours * (p.advertiser_last_seen_hours_ago : ℚ) / 24
    else 0) +
   (if 0 < p.creative_ad.priority then w.priority / (p.creative_ad.priority : ℚ)
    else 0)) * p.creative_ad.ptr

/-- C5: `ComputePredictorScore` equals the sum described by the claim —
within each of the intent and interest categories only one segment-match
weight contributes and the child match wins; each recency weight contributes
`weight * hours_ago / 24` only when `hours_ago ≤ 24`; the priority weight
contributes `weight / priority` only when `priority > 0`; and the whole sum
is multiplied by the ad's `ptr`. -/
theorem claim5_score_structure (env : Env) (p : AdPredictorInfo) :
    ComputePredictorScore env p = predictorScoreClaimed env.weights p := by
  simp only [ComputePredictorScore, predictorScoreClaimed, kHoursPerDay]
  split_ifs <;> push_cast <;> ring

/-! ## Claim C6: no division by zero in `ComputePredictorScore` -/

/-- Division that reports `none` on a zero divisor. -/
def checkedDiv (a b : ℚ) : Option ℚ :=
  if b = 0 then none else some (a / b)

/-- `ComputePredictorScore` with every division checked: the claim-side
instrumentation of C6, mirroring the source term by term. -/
def ComputePredictorScoreCheckedDiv (env : Env) (ad_predictor : AdPredictorInfo) :
    Option ℚ :=
  let weights := env.weights
  let score : ℚ := 0
  let score :=
    if ad_predictor.does_match_intent_child_segments then
      score + weights.matchesIntentChildSegment
    else if ad_predictor.does_match_intent_parent_segments then
      score + weights.matchesIntentParentSegment
    else score
  let score :=
    if ad_predictor.does_match_interest_child_segments then
      score + weights.matchesInterestChildSegment
    else if ad_predictor.does_match_interest_parent_segments then
      score + weights.matchesInterestParentSegment
    else score
  (if ad_predictor.ad_last_seen_hours_ago ≤ kHoursPerDay then
     (checkedDiv (weights.adLastSeenInHours *
        (ad_predictor.ad_last_seen_hours_ago : ℚ)) (kHoursPerDay : ℚ)).map
       (fun t => score + t)
   else some score).bind (fun score =>
  (if ad_predictor.advertiser_last_seen_hours_ago ≤ kHoursPerDay then
     (checkedDiv (weights.advertiserLastSeenInHours *
        (ad_predictor.advertiser_last_seen_hours_ago : ℚ)) (kHoursPerDay : ℚ)).map
       (fun t => score + t)
   else some score).bind (fun score =>
  (if 0 < ad_predictor.creative_ad.priority then
     (checkedDiv weights.priority (ad_predictor.creative_ad.priority : ℚ)).map
       (fun t => score + t)
   else some score).map (fun score => score * ad_predictor.creative_ad.ptr)))

/-- C6: `ComputePredictorScore` never divides by zero — the checked-division
variant always succeeds and returns exactly the score: when `priority = 0`
the priority term is skipped rather than divided, and when `priority > 0` the
divisor is that positive priority (hence non-zero). -/
theorem claim6_no_division_by_zero (env : Env) (p : AdPredictorInfo) :
    ComputePredictorScoreCheckedDiv env p = some (ComputePredictorScore env p) := by
  have h24 : ((kHoursPerDay : Int) : ℚ) ≠ 0 := by norm_num [kHoursPerDay]
  by_cases h₃ : p.ad_last_seen_hours_ago ≤ kHoursPerDay <;>
    by_cases h₄ : p.advertiser_last_seen_hours_ago ≤ kHoursPerDay <;>
    by_cases h₅ : 0 < p.creative_ad.priority
  all_goals
    try have hpq : ((p.creative_ad.priority : Nat) : ℚ) ≠ 0 :=
      Nat.cast_ne_zero.mpr (Nat.pos_iff_ne_zero.mp h₅)
  all_goals
    simp [ComputePredictorScoreCheckedDiv, ComputePredictorScore, checkedDiv,
      h24, h₃, h₄, h₅, *]

/-! ## Claim C7: `ComputePredictorFeatures` flags -/

/-- Membership in `SetIntersection`. -/
theorem mem_SetIntersection {s : Segment} {l₁ l₂ : SegmentList} :
    s ∈ SetIntersection l₁ l₂ ↔ s ∈ l₁ ∧ s ∈ l₂ := by
  simp [SetIntersection, List.mem_filter]

/-- Non-emptiness of `SetIntersection` is a shared element. -/
theorem setIntersection_not_isEmpty {l₁ l₂ : SegmentList} :
    (!(SetIntersection l₁ l₂).isEmpty) = true ↔ ∃ s ∈ l₁, s ∈ l₂ := by
  rw [Bool.not_eq_true', ← Bool.not_eq_true, List.isEmpty_iff]
  constructor
  · intro h
    rcases List.exists_mem_of_ne_nil _ h with ⟨s, hs⟩
    exact ⟨s, mem_SetIntersection.mp hs⟩
  · rintro ⟨s, h₁, h₂⟩ hnil
    exact (List.eq_nil_iff_forall_not_mem.mp hnil s)
      (mem_SetIntersection.mpr ⟨h₁, h₂⟩)

/-- C7: `ComputePredictorFeatures` sets the intent-child flag iff the intent
segments intersect the ad's segments, the interest-child flag iff the
interest segments intersect the ad's segments, and **both** parent flags iff
`GetParentSegments(interest_segments)` — interest, not intent — intersects
the ad's segments. -/
theorem claim7_feature_flags (env : Env) (p : AdPredictorInfo)
    (ad_events : AdEventList) (interest_segments intent_segments : SegmentList) :
    let feats := ComputePredictorFeatures env p ad_events interest_segments
      intent_segments
    (feats.does_match_intent_child_segments = true ↔
      ∃ s ∈ intent_segments, s ∈ p.segments) ∧
    (feats.does_match_intent_parent_segments = true ↔
      ∃ s ∈ GetParentSegments interest_segments, s ∈ p.segments) ∧
    (feats.does_match_interest_child_segments = true ↔
      ∃ s ∈ interest_segments, s ∈ p.segments) ∧
    (feats.does_match_interest_parent_segments = true ↔
      ∃ s ∈ GetParentSegments interest_segments, s ∈ p.segments) := by
  refine ⟨?_, ?_, ?_, ?_⟩ <;>
    simpa [ComputePredictorFeatures] using setIntersection_not_isEmpty

/-! ## Claim C1: when `GetForSegments` reports `allowed = false` -/

/-- C1 counterexample: with every lookup succeeding (`adEventsResult` is
`some`, the catalog returns success) and a purely parent-level segment list
`["foo"]` matching no ads, `GetForSegments` reports `allowed = false` — the
parent tier aborts because `GetParentSegments(["foo"]) = ["foo"]` — even
though no asynchronous storage dependency failed, refuting the claim that
`allowed = false` occurs only on a hard lookup failure. -/
theorem claim1_counterexample :
    GetForSegments env0 ["foo"] ("dims") = (false, []) ∧
    env0.adEventsResult = some [] ∧
    (env0.catalogForSegmentsAndDimensions ["foo"] ("dims")).1 = true :=
  ⟨rfl, rfl, rfl⟩

/-- C1 amended: `GetForSegments` reports `allowed = false` exactly when the
ad-event lookup fails, or when the segments are non-empty, the parent-child
tier filters to empty, and the parent segments of the segment list passed
back by that catalog lookup equal that list (so the cascade aborts before
the untargeted tier).  In every other case — in particular whenever no
eligible ads remain at the untargeted tier — it reports `allowed = true`. -/
theorem claim1_amended (env : Env) (segments : SegmentList)
    (dimensions : String) :
    (GetForSegments env segments dimensions).1 = false ↔
      env.adEventsResult = none ∨
      (∃ ad_events, env.adEventsResult = some ad_events ∧ segments ≠ [] ∧
        (let r := env.catalogForSegmentsAndDimensions segments dimensions
         FilterIneligibleAds env r.2.2 ad_events env.browsingHistory = [] ∧
         GetParentSegments r.2.1 = r.2.1)) := by
  rcases hE : env.adEventsResult with _ | ad_events
  · simp [GetForSegments, hE]
  · simp only [GetForSegments, GetForParentChildSegments, GetForParentSegments,
      GetForUntargeted, hE, Option.some.injEq, List.isEmpty_iff,
      reduceCtorEq, false_or]
    split_ifs with h₁ h₂ h₃ h₄ <;> simp_all

/-! ## Claim C2: the targeting cascade -/

/-- An environment whose catalog has one eligible untargeted ad and nothing
else, every lookup succeeding. -/
def cenv2 : Env :=
  { env0 with
    catalogForSegmentsAndDimensions := fun segs _ =>
      (true, segs, if segs = [kUntargeted] then [adFoo] else []) }

/-- C2 counterexample: for segments `["foo"]` (already parent-level) the
untargeted tier would produce a non-empty eligible list, yet `GetForSegments`
never reaches it: it stops at the parent tier with `(false, [])` because
`GetParentSegments(["foo"]) = ["foo"]`, refuting the claim that the cascade
always returns the first tier whose filtered list is non-empty. -/
theorem claim2_counterexample :
    GetForSegments cenv2 ["foo"] ("dims") = (false, []) ∧
    FilterIneligibleAds cenv2
      (cenv2.catalogForSegmentsAndDimensions [kUntargeted] ("dims")).2.2
      [] [] = [adFoo] :=
  ⟨rfl, rfl⟩

/-- C2 amended: `GetForSegments` queries the untargeted tier directly when
`segments` is empty; otherwise it tries parent-child, then parent, then
untargeted, returning the first tier whose list is non-empty after
`FilterIneligibleAds`, *provided* the parent segments of the segment list
passed back by the parent-child catalog lookup differ from that list (when
they coincide the cascade aborts with `(false, [])`, see the
counterexample); the parent tier is computed from the catalog-echoed segment
list, not from the caller's original segments. -/
theorem claim2_amended (env : Env) (dimensions : String)
    (ad_events : AdEventList) (hE : env.adEventsResult = some ad_events) :
    (GetForSegments env [] dimensions =
      (true, FilterIneligibleAds env
        (env.catalogForSegmentsAndDimensions [kUntargeted] dimensions).2.2
        ad_events env.browsingHistory)) ∧
    ∀ segments : SegmentList, segments ≠ [] →
      let r := env.catalogForSegmentsAndDimensions segments dimensions
      let tier₁ := FilterIneligibleAds env r.2.2 ad_events env.browsingHistory
      (tier₁ ≠ [] → GetForSegments env segments dimensions = (true, tier₁)) ∧
      (tier₁ = [] → GetParentSegments r.2.1 ≠ r.2.1 →
        let r₂ := env.catalogForSegmentsAndDimensions (GetParentSegments r.2.1)
          dimensions
        let tier₂ := FilterIneligibleAds env r₂.2.2 ad_events env.browsingHistory
        (tier₂ ≠ [] → GetForSegments env segments dimensions = (true, tier₂)) ∧
        (tier₂ = [] → GetForSegments env segments dimensions =
          (true, FilterIneligibleAds env
            (env.catalogForSegmentsAndDimensions [kUntargeted] dimensions).2.2
            ad_events env.browsingHistory))) := by
  constructor
  · simp [GetForSegments, hE, GetForUntargeted]
  · intro segments hs
    have hs' : segments.isEmpty = false := by cases segments <;> simp_all
    refine ⟨?_, ?_⟩
    · intro h₁
      simp_all [GetForSegments, GetForParentChildSegments, hE, hs',
        List.isEmpty_iff]
    · intro h₁ h₂
      refine ⟨?_, ?_⟩
      · intro h₃
        simp_all [GetForSegments, GetForParentChildSegments,
          GetForParentSegments, hE, hs', List.isEmpty_iff]
      · intro h₃
        simp_all [GetForSegments, GetForParentChildSegments,
          GetForParentSegments, GetForUntargeted, hE, hs', List.isEmpty_iff]

/-- C2 amended, witnessed at a concrete input: with the permissive
environment and empty segments the untargeted tier is queried directly. -/
theorem claim2_amended_witness :
    GetForSegments env0 [] ("dims") =
      (true, FilterIneligibleAds env0
        (env0.catalogForSegmentsAndDimensions [kUntargeted] ("dims")).2.2
        [] env0.browsingHistory) :=
  (claim2_amended env0 ("dims") [] rfl).1

/-! ## Claim C4: when the last-served exclusion is skipped -/

/-- A second well-formed creative ad. -/
def adBar : CreativeAdInfo :=
  { creative_instance_id := "instance-2"
    creative_set_id := "set-2"
    campaign_id := "campaign-2"
    advertiser_id := "advertiser-2"
    segment := "untargeted"
    priority := 1
    ptr := 1 }

/-- An environment whose seen-ad memory contains `adBar` and whose last
served ad is `adFoo`. -/
def env4 : Env :=
  { env0 with
    seenAd := fun ad => ad.creative_instance_id == "instance-2"
    lastServedCreativeAd := adFoo }

/-- C4 counterexample: on the input `[adFoo, adBar]` exactly one ad
(`adFoo`) survives the stages prior to frequency capping, yet
`ShouldCapLastServedAd` — evaluated on the *input* list, of size 2 — is
`true`, and the sole survivor, being the last served ad, is excluded: the
pipeline returns `[]`.  This refutes the claim, which predicates the skip on
how many ads survive the prior stages. -/
theorem claim4_counterexample :
    FilterSeenAdsAndRoundRobinIfNeeded env4
      (FilterSeenAdvertisersAndRoundRobinIfNeeded env4 [adFoo, adBar]) =
      [adFoo] ∧
    ShouldCapLastServedAd [adFoo, adBar] = true ∧
    FilterIneligibleAds env4 [adFoo, adBar] [] [] = [] :=
  ⟨rfl, rfl, rfl⟩

/-- C4 amended: the last-served check is governed by the size of the *input*
list, not by how many ads survive the prior stages — when the input list
passed to `FilterIneligibleAds` has exactly one ad, `ShouldCapLastServedAd`
is `false` and the frequency-capping stage runs with a default-constructed
`CreativeAdInfo` in place of the last served ad. -/
theorem claim4_amended (env : Env) (ad_events : AdEventList)
    (browsing_history : BrowsingHistoryList) (ads : CreativeAdList)
    (h : ads.length = 1) :
    ShouldCapLastServedAd ads = false ∧
    FilterIneligibleAds env ads ad_events browsing_history =
      PrioritizeAds (PaceAds env (ApplyFrequencyCapping env
        (FilterSeenAdsAndRoundRobinIfNeeded env
          (FilterSeenAdvertisersAndRoundRobinIfNeeded env ads))
        defaultCreativeAdInfo ad_events browsing_history)) := by
  obtain ⟨a, rfl⟩ : ∃ a, ads = [a] := by
    cases ads with
    | nil => simp at h
    | cons a t =>
      cases t with
      | nil => exact ⟨a, rfl⟩
      | cons b t₂ => simp at h
  exact ⟨rfl, rfl⟩

/-- C4 amended, witnessed at a concrete single-ad input. -/
theorem claim4_amended_witness :
    ShouldCapLastServedAd [adFoo] = false ∧
    FilterIneligibleAds env0 [adFoo] [] [] =
      PrioritizeAds (PaceAds env0 (ApplyFrequencyCapping env0
        (FilterSeenAdsAndRoundRobinIfNeeded env0
          (FilterSeenAdvertisersAndRoundRobinIfNeeded env0 [adFoo]))
        defaultCreativeAdInfo [] [])) :=
  claim4_amended env0 [] [] [adFoo] rfl

/-! ## Claim C10: the default-constructed last served ad -/

/-- C10: when the input list has exactly one ad, `ShouldCapLastServedAd` is
`false` and both `FilterIneligibleAds` and `GetEligibleAds` pass a
default-constructed `CreativeAdInfo` (empty `creative_instance_id`) into
`ApplyFrequencyCapping`; the last-served comparison then removes a candidate
iff its `creative_instance_id` is the empty string — a sole candidate with a
non-empty id is never excluded by that comparison, one with an empty id
always is. -/
theorem claim10_default_last_served (env : Env) (a : CreativeAdInfo)
    (ad_events : AdEventList) (browsing_history : BrowsingHistoryList)
    (interest_segments intent_segments : SegmentList) (dimensions : String) :
    let env₂ : Env := { env with catalogForDimensions := fun _ => (true, [a]) }
    ShouldCapLastServedAd [a] = false ∧
    FilterIneligibleAds env [a] ad_events browsing_history =
      PrioritizeAds (PaceAds env (ApplyFrequencyCapping env
        (FilterSeenAdsAndRoundRobinIfNeeded env
          (FilterSeenAdvertisersAndRoundRobinIfNeeded env [a]))
        defaultCreativeAdInfo ad_events browsing_history)) ∧
    GetEligibleAds env₂ interest_segments intent_segments ad_events
        browsing_history dimensions =
      (let eligible := ApplyFrequencyCapping env₂ [a] defaultCreativeAdInfo
         ad_events browsing_history
       if eligible.isEmpty then (true, none)
       else ChooseAd env₂ eligible ad_events interest_segments
         intent_segments) ∧
    ApplyFrequencyCapping env [a] defaultCreativeAdInfo ad_events
        browsing_history =
      (if (env.shouldExcludeAd ad_events browsing_history a ||
           (a.creative_instance_id == "")) then [] else [a]) := by
  intro env₂
  refine ⟨rfl, rfl, rfl, ?_⟩
  cases h₁ : env.shouldExcludeAd ad_events browsing_history a <;>
    cases h₂ : (a.creative_instance_id == "") <;>
    simp [ApplyFrequencyCapping, defaultCreativeAdInfo, h₁, h₂, beq_iff_eq]

/-! ## Claim C9: idempotence of `FilterIneligibleAds` -/

/-- A creative ad with an empty `creative_instance_id`. -/
def adEmptyId : CreativeAdInfo :=
  { creative_instance_id := ""
    creative_set_id := "set-3"
    campaign_id := "campaign-3"
    advertiser_id := "advertiser-3"
    segment := "untargeted"
    priority := 1
    ptr := 1 }

/-- An environment whose last served ad is `adBar`. -/
def env9 : Env :=
  { env0 with lastServedCreativeAd := adBar }

/-- C9 counterexample: on `[adEmptyId, adBar]` the first pass removes the
last served `adBar` and keeps `adEmptyId`; the second pass, now on a
one-element list, compares against a default-constructed `CreativeAdInfo`
whose instance id is the empty string and removes `adEmptyId` as well — the
pipeline is not idempotent. -/
theorem claim9_counterexample :
    FilterIneligibleAds env9 [adEmptyId, adBar] [] [] = [adEmptyId] ∧
    FilterIneligibleAds env9
      (FilterIneligibleAds env9 [adEmptyId, adBar] [] []) [] [] = [] :=
  ⟨rfl, rfl⟩

/-- `RoundRobinFilter` returns a sublist. -/
theorem roundRobinFilter_sublist (keep : CreativeAdInfo → Bool)
    (ads : CreativeAdList) :
    List.Sublist (RoundRobinFilter keep ads) ads := by
  simp only [RoundRobinFilter]
  split
  · exact List.Sublist.refl _
  · exact List.filter_sublist _

/-- `PrioritizeAds` returns a sublist. -/
theorem prioritizeAds_sublist (ads : CreativeAdList) :
    List.Sublist (PrioritizeAds ads) ads := by
  simp only [PrioritizeAds]
  split
  · exact List.nil_sublist _
  · exact List.filter_sublist _

/-- The whole pipeline returns a sublist of its input. -/
theorem filterIneligibleAds_sublist (env : Env) (ads : CreativeAdList)
    (ad_events : AdEventList) (browsing_history : BrowsingHistoryList) :
    List.Sublist (FilterIneligibleAds env ads ad_events browsing_history)
      ads := by
  simp only [FilterIneligibleAds, FilterSeenAdsAndRoundRobinIfNeeded,
    FilterSeenAdvertisersAndRoundRobinIfNeeded, PaceAds, ApplyFrequencyCapping]
  split
  · exact List.nil_sublist _
  · exact (prioritizeAds_sublist _).trans ((List.filter_sublist _).trans
      ((List.filter_sublist _).trans ((roundRobinFilter_sublist _ _).trans
        (roundRobinFilter_sublist _ _))))

/-- `RoundRobinFilter` is the identity when `keep` accepts everything. -/
theorem roundRobinFilter_eq_self_of_all {keep : CreativeAdInfo → Bool}
    {ads : CreativeAdList} (h : ∀ a ∈ ads, keep a = true) :
    RoundRobinFilter keep ads = ads := by
  simp [RoundRobinFilter, List.filter_eq_self.mpr h]

/-- `RoundRobinFilter` is the identity when `keep` rejects everything: the
round-robin reset returns the full list. -/
theorem roundRobinFilter_eq_self_of_none {keep : CreativeAdInfo → Bool}
    {ads : CreativeAdList} (h : ∀ a ∈ ads, keep a = false) :
    RoundRobinFilter keep ads = ads := by
  have hf : ads.filter keep = [] :=
    List.filter_eq_nil_iff.mpr (fun a ha => by simp [h a ha])
  simp [RoundRobinFilter, hf]

/-- `RoundRobinFilter` is the identity on any list drawn from one of its own
outputs (for the same memory): the output is either all-kept or all-rejected,
and either way a second application changes nothing. -/
theorem roundRobinFilter_eq_self_of_mem (keep : CreativeAdInfo → Bool)
    (ads : CreativeAdList) {y : CreativeAdList}
    (hy : ∀ a ∈ y, a ∈ RoundRobinFilter keep ads) :
    RoundRobinFilter keep y = y := by
  by_cases hf : (ads.filter keep).isEmpty = true
  · have hall : ∀ a ∈ ads, keep a = false := by
      intro a ha
      have := List.filter_eq_nil_iff.mp (List.isEmpty_iff.mp hf) a ha
      simpa using this
    have hrr : RoundRobinFilter keep ads = ads := by
      simp [RoundRobinFilter, hf]
    exact roundRobinFilter_eq_self_of_none
      (fun a ha => hall a (by have := hy a ha; rwa [hrr] at this))
  · have hrr : RoundRobinFilter keep ads = ads.filter keep := by
      simp [RoundRobinFilter, hf]
    exact roundRobinFilter_eq_self_of_all (fun a ha =>
      (List.mem_filter.mp (by have := hy a ha; rwa [hrr] at this)).2)

/-- `minPriority` of a non-empty list of uniform priority `m` is `m`. -/
theorem minPriority_of_uniform {m : Nat} {l : CreativeAdList} (hne : l ≠ [])
    (hall : ∀ a ∈ l, a.priority = m) : minPriority l = some m := by
  induction l with
  | nil => exact absurd rfl hne
  | cons a t ih =>
    cases t with
    | nil => simp [minPriority, hall a (List.mem_cons_self a _)]
    | cons b t₂ =>
      have ht : minPriority (b :: t₂) = some m :=
        ih (by simp) (fun x hx => hall x (List.mem_cons_of_mem a hx))
      have ha : a.priority = m := hall a (List.mem_cons_self a _)
      have hstep : minPriority (a :: b :: t₂) = some (min a.priority m) := by
        show some (match minPriority (b :: t₂) with
                   | none => a.priority
                   | some m => min a.priority m) = some (min a.priority m)
        rw [ht]
      rw [hstep, ha, Nat.min_self]

/-- `PrioritizeAds` is the identity on a non-empty list of uniform
priority. -/
theorem prioritizeAds_eq_self {m : Nat} {l : CreativeAdList} (hne : l ≠ [])
    (hall : ∀ a ∈ l, a.priority = m) : PrioritizeAds l = l := by
  unfold PrioritizeAds
  rw [minPriority_of_uniform hne hall]
  exact List.filter_eq_self.mpr (fun a ha => by simp [hall a ha])

/-- For non-empty input the pipeline unfolds to its five stages. -/
theorem filterIneligibleAds_eq (env : Env) (ads : CreativeAdList)
    (ad_events : AdEventList) (browsing_history : BrowsingHistoryList)
    (h : ads.isEmpty = false) :
    FilterIneligibleAds env ads ad_events browsing_history =
      PrioritizeAds (PaceAds env (ApplyFrequencyCapping env
        (RoundRobinFilter (fun ad => !env.seenAd ad)
          (RoundRobinFilter (fun ad => !env.seenAdvertiser ad) ads))
        (if ShouldCapLastServedAd ads then env.lastServedCreativeAd
         else defaultCreativeAdInfo) ad_events browsing_history)) := by
  simp only [FilterIneligibleAds, h, Bool.false_eq_true, if_false,
    FilterSeenAdsAndRoundRobinIfNeeded,
    FilterSeenAdvertisersAndRoundRobinIfNeeded]

/-- C9 amended: with the same ad-event history, browsing history and engine
state, `FilterIneligibleAds` is idempotent *provided* every candidate's
`creative_instance_id` is non-empty; the proviso is forced by the
counterexample, where a surviving empty-id candidate is removed on the second
pass by the comparison against the default-constructed last served ad. -/
theorem claim9_amended (env : Env) (ad_events : AdEventList)
    (browsing_history : BrowsingHistoryList) (ads : CreativeAdList)
    (hids : ∀ a ∈ ads, a.creative_instance_id ≠ "") :
    FilterIneligibleAds env
      (FilterIneligibleAds env ads ad_events browsing_history)
      ad_events browsing_history =
    FilterIneligibleAds env ads ad_events browsing_history := by
  by_cases hads : ads.isEmpty = true
  · rw [List.isEmpty_iff.mp hads]
    rfl
  have hadsF : ads.isEmpty = false := Bool.eq_false_iff.mpr hads
  have hyval := filterIneligibleAds_eq env ads ad_events browsing_history hadsF
  set rr₁ := RoundRobinFilter (fun ad => !env.seenAdvertiser ad) ads with hrr₁
  set rr₂ := RoundRobinFilter (fun ad => !env.seenAd ad) rr₁ with hrr₂
  set L₁ := (if ShouldCapLastServedAd ads then env.lastServedCreativeAd
             else defaultCreativeAdInfo) with hL₁
  set cap := ApplyFrequencyCapping env rr₂ L₁ ad_events browsing_history
    with hcap
  set pc := PaceAds env cap with hpc
  set y := FilterIneligibleAds env ads ad_events browsing_history with hy
  by_cases hyE : y = []
  · rw [hyE]
    rfl
  have hyEF : y.isEmpty = false :=
    Bool.eq_false_iff.mpr (fun h => hyE (List.isEmpty_iff.mp h))
  have hy_ads_sub : List.Sublist y ads := by
    rw [hy]
    exact filterIneligibleAds_sublist env ads ad_events browsing_history
  -- membership chains from the first pass
  have hy_pc : ∀ a ∈ y, a ∈ pc := by
    intro a ha
    rw [hyval] at ha
    exact (prioritizeAds_sublist pc).mem ha
  have hy_cap : ∀ a ∈ y, a ∈ cap := by
    intro a ha
    have h' := hy_pc a ha
    rw [hpc] at h'
    simp only [PaceAds] at h'
    exact (List.filter_sublist _).mem h'
  have hy_rr₂ : ∀ a ∈ y, a ∈ rr₂ := by
    intro a ha
    have h' := hy_cap a ha
    rw [hcap] at h'
    simp only [ApplyFrequencyCapping] at h'
    exact (List.filter_sublist _).mem h'
  have hy_rr₁ : ∀ a ∈ y, a ∈ rr₁ := by
    intro a ha
    have h' := hy_rr₂ a ha
    rw [hrr₂] at h'
    exact (roundRobinFilter_sublist _ _).mem h'
  -- per-element facts from the first pass
  have hpace : ∀ a ∈ y, env.paceAllows a = true := by
    intro a ha
    have h' := hy_pc a ha
    rw [hpc] at h'
    simp only [PaceAds, List.mem_filter] at h'
    exact h'.2
  have hcapkeep : ∀ a ∈ y,
      env.shouldExcludeAd ad_events browsing_history a = false ∧
      (a.creative_instance_id == L₁.creative_instance_id) = false := by
    intro a ha
    have h' := hy_cap a ha
    rw [hcap] at h'
    simp only [ApplyFrequencyCapping, List.mem_filter, Bool.not_eq_eq_eq_not,
      Bool.not_true, Bool.or_eq_false_iff] at h'
    exact h'.2
  -- the second pass fixes y stage by stage
  have hrun2 := filterIneligibleAds_eq env y ad_events browsing_history hyEF
  have hS1y : RoundRobinFilter (fun ad => !env.seenAdvertiser ad) y = y :=
    roundRobinFilter_eq_self_of_mem _ ads (fun a ha => hy_rr₁ a ha)
  have hS2y : RoundRobinFilter (fun ad => !env.seenAd ad) y = y :=
    roundRobinFilter_eq_self_of_mem _ rr₁ (fun a ha => hy_rr₂ a ha)
  have hcapy : ApplyFrequencyCapping env y
      (if ShouldCapLastServedAd y then env.lastServedCreativeAd
       else defaultCreativeAdInfo) ad_events browsing_history = y := by
    simp only [ApplyFrequencyCapping]
    apply List.filter_eq_self.mpr
    intro a ha
    have hex := (hcapkeep a ha).1
    have hid : (a.creative_instance_id ==
        (if ShouldCapLastServedAd y then env.lastServedCreativeAd
         else defaultCreativeAdInfo).creative_instance_id) = false := by
      by_cases hy1 : y.length = 1
      · have hsc : ShouldCapLastServedAd y = false := by
          simp [ShouldCapLastServedAd, hy1]
        rw [hsc]
        simp only [Bool.false_eq_true, if_false, defaultCreativeAdInfo]
        exact beq_eq_false_iff_ne.mpr (hids a (hy_ads_sub.mem ha))
      · have hsc : ShouldCapLastServedAd y = true := by
          simp [ShouldCapLastServedAd, hy1]
        rw [hsc]
        simp only [if_true]
        by_cases hads1 : ads.length = 1
        · exfalso
          have hle : y.length ≤ 1 := hads1 ▸ hy_ads_sub.length_le
          have hpos : 0 < y.length := List.length_pos.mpr hyE
          omega
        · have hsc₁ : ShouldCapLastServedAd ads = true := by
            simp [ShouldCapLastServedAd, hads1]
          have := (hcapkeep a ha).2
          rw [hL₁, hsc₁] at this
          simpa using this
    simp [hex, hid]
  have hpacey : PaceAds env y = y := by
    simp only [PaceAds]
    exact List.filter_eq_self.mpr (fun a ha => hpace a ha)
  have hprioy : PrioritizeAds y = y := by
    rcases hm : minPriority pc with _ | m
    · exfalso
      apply hyE
      rw [hyval]
      simp [PrioritizeAds, hm]
    · have hyfil : y = pc.filter (fun ad => ad.priority == m) := by
        rw [hyval]
        simp [PrioritizeAds, hm]
      have hall : ∀ a ∈ y, a.priority = m := by
        intro a ha
        rw [hyfil] at ha
        simpa using (List.mem_filter.mp ha).2
      exact prioritizeAds_eq_self hyE hall
  rw [hrun2, hS1y, hS2y, hcapy, hpacey, hprioy]

/-- C9 amended, witnessed at a concrete input with non-empty instance
ids. -/
theorem claim9_amended_witness :
    FilterIneligibleAds env9
      (FilterIneligibleAds env9 [adFoo, adBar] [] []) [] [] =
    FilterIneligibleAds env9 [adFoo, adBar] [] [] :=
  claim9_amended env9 [] [] [adFoo, adBar] (by decide)

/-! ## Claim C8: `GetFromAdPredictorScores` -/

/-- The behaviour claim C8 ascribes to `GetFromAdPredictorScores` between
catalog fetch and sampling: the full five-stage `FilterIneligibleAds`
pipeline applied once to the dimension-matched catalog.  Claim-side
definition, following the spec's words, for comparison with
`GetEligibleAds`. -/
def GetEligibleAdsClaimed (env : Env)
    (interest_segments intent_segments : SegmentList)
    (ad_events : AdEventList) (browsing_history : BrowsingHistoryList)
    (dimensions : String) : Bool × Option CreativeAdInfo :=
  let r := env.catalogForDimensions dimensions
  if !r.1 then (false, none)
  else if r.2.isEmpty then (true, none)
  else
    let eligible_ads := FilterIneligibleAds env r.2 ad_events browsing_history
    if eligible_ads.isEmpty then (true, none)
    else ChooseAd env eligible_ads ad_events interest_segments intent_segments

/-- An environment with one catalog ad that the pacing stage would drop. -/
def env8 : Env :=
  { env0 with
    catalogForDimensions := fun _ => (true, [adFoo])
    paceAllows := fun _ => false }

/-- C8 counterexample: in `env8` the pacing stage would remove the only
catalog ad, so the claimed five-stage pipeline yields `(true, none)`; the
code applies only `ApplyFrequencyCapping` — no seen-dedup, no pacing, no
priority sort — and serves the ad: `(true, some adFoo)`. -/
theorem claim8_counterexample :
    GetFromAdPredictorScores env8 [] [] ("dims") = (true, some adFoo) ∧
    GetEligibleAdsClaimed env8 [] [] [] [] ("dims") = (true, none) ∧
    GetFromAdPredictorScores env8 [] [] ("dims") ≠
      GetEligibleAdsClaimed env8 [] [] [] [] ("dims") :=
  ⟨rfl, rfl, by decide⟩

/-- C8 amended: `GetFromAdPredictorScores` fetches the dimension-matched
catalog once with no segment cascade, applies *only* the frequency-capping
stage (with the last-served exclusion governed by `ShouldCapLastServedAd` on
the catalog list), then groups the survivors by `creative_instance_id`,
computes features and scores, and samples one winner. -/
theorem claim8_amended (env : Env)
    (interest_segments intent_segments : SegmentList) (dimensions : String)
    (ad_events : AdEventList) (hE : env.adEventsResult = some ad_events) :
    GetFromAdPredictorScores env interest_segments intent_segments dimensions =
      (let r := env.catalogForDimensions dimensions
       if !r.1 then (false, none)
       else if r.2.isEmpty then (true, none)
       else
         let eligible_ads := ApplyFrequencyCapping env r.2
           (if ShouldCapLastServedAd r.2 then env.lastServedCreativeAd
            else defaultCreativeAdInfo) ad_events env.browsingHistory
         if eligible_ads.isEmpty then (true, none)
         else (true, env.sampler (ComputePredictorFeaturesAndScores env
           (GroupEligibleAdsByCreativeInstanceId eligible_ads) ad_events
           interest_segments intent_segments))) := by
  simp only [GetFromAdPredictorScores, hE, GetEligibleAds, ChooseAd]

/-- C8 amended, witnessed at a concrete environment. -/
theorem claim8_amended_witness :
    GetFromAdPredictorScores env8 [] [] ("dims") =
      (let r := env8.catalogForDimensions ("dims")
       if !r.1 then (false, none)
       else if r.2.isEmpty then (true, none)
       else
         let eligible_ads := ApplyFrequencyCapping env8 r.2
           (if ShouldCapLastServedAd r.2 then env8.lastServedCreativeAd
            else defaultCreativeAdInfo) [] env8.browsingHistory
         if eligible_ads.isEmpty then (true, none)
         else (true, env8.sampler (ComputePredictorFeaturesAndScores env8
           (GroupEligibleAdsByCreativeInstanceId eligible_ads) [] [] []))) :=
  claim8_amended env8 [] [] ("dims") [] rfl
